import Mathlib

/-!
Verification of the page-processing pipeline of the indic-pdf-translator
repository (src/translator.py), as a shallow embedding in Lean 4.

External collaborators (the OCR engine, the fastText language-identification
model, the LibreTranslate HTTP endpoint, and the PDF rendering library) are
modelled as oracle functions collected in an `Env` record; the repository's
own control flow and data flow are translated directly from the source.
-/

namespace IndicPdf

/-- Page geometry, the `width`/`height` view of a PyMuPDF `page.rect`.
Coordinates are idealised as rationals. -/
structure Rect where
  width : Rat
  height : Rat
deriving Repr, DecidableEq

/-- An input page: its rectangle, its native text layer (the result of
`page.get_text()`), and the xrefs of its embedded raster images (the first
component of each tuple from `page.get_images(full=True)`). -/
structure Page where
  rect : Rect
  nativeText : String
  images : List Nat
deriving Repr, DecidableEq

/-- One `new_page.insert_text(...)` call recorded on an output page:
anchor point, text, font name, font size, rotation, and the optional
`color=` keyword (`none` means the library default colour was used). -/
structure InsertedText where
  point : Nat × Nat
  text : String
  fontname : String
  fontsize : Nat
  rotate : Nat
  color : Option (Nat × Nat × Nat)
deriving Repr, DecidableEq

/-- An output page built by the reassembly loop of `process_pdf`:
its geometry, the text insertions drawn on it, and the images copied onto
it (each with the rectangle it was inserted at and its source xref). -/
structure OutPage where
  width : Rat
  height : Rat
  texts : List InsertedText
  images : List (Rect × Nat)
deriving Repr, DecidableEq

/-- Oracles for the external collaborators of translator.py.
`predict` is the fastText top-1 label for a text sample (including the
raw label with its leading marker, e.g. "__label__hi"); `code2lang` is the
lang_codes.json table; `render2x` renders a page to raster bytes at the
fixed 2x matrix; `ocr` is pytesseract.image_to_string on those bytes with
a script name; `remote` is the LibreTranslate POST — `some t` stands for a
2xx response whose JSON body carries `translatedText = t`, and `none`
stands for any failure (network error, non-2xx status, malformed body,
missing field). -/
structure Env where
  predict : String → String
  code2lang : String → Option String
  render2x : Page → List Nat
  ocr : List Nat → String → String
  remote : String → String → String → Option String

/-- The default character set Python str.strip() removes: ASCII
whitespace. -/
def isPyWs (c : Char) : Bool :=
  c == ' ' || c == '\t' || c == '\n' || c == '\r' || c == '\x0b' || c == '\x0c'

/-- Models Python str.strip() on the text values the pipeline handles:
leading and trailing whitespace removed. -/
def py_strip (s : String) : String :=
  ⟨((s.data.dropWhile isPyWs).reverse.dropWhile isPyWs).reverse⟩

/-- The fixed mapping table inside `tess_lang` (translator.py lines 39-62),
in source order. -/
def tessMapping : List (String × String) :=
  [("Hindi", "Devanagari"),
   ("Bengali", "Bengali"),
   ("Tamil", "Tamil"),
   ("Telugu", "Telugu"),
   ("Marathi", "Devanagari"),
   ("Gujarati", "Gujarati"),
   ("Kannada", "Kannada"),
   ("Malayalam", "Malayalam"),
   ("Odia", "Oriya"),
   ("Punjabi", "Gurmukhi"),
   ("Assamese", "Bengali"),
   ("Urdu", "Arabic"),
   ("Sanskrit", "Devanagari"),
   ("Nepali", "Devanagari"),
   ("Konkani", "Devanagari"),
   ("Bodo", "Devanagari"),
   ("Dogri", "Devanagari"),
   ("Maithili", "Devanagari"),
   ("Manipuri", "Bengali"),
   ("Santhali", "Bengali"),
   ("Sindhi", "Arabic"),
   ("Kashmiri", "Arabic")]

/-- translator.py `tess_lang`: map a human language name to a tesseract
script name via the fixed dict, with `mapping.get(lang_code, "Devanagari")`
as the fallback. -/
def tess_lang (lang_code : String) : String :=
  (tessMapping.lookup lang_code).getD "Devanagari"

/-- The set of script identifiers `tess_lang` can produce: the values of
its table together with the default. -/
def tessScripts : List String :=
  ["Devanagari", "Bengali", "Tamil", "Telugu", "Gujarati", "Kannada",
   "Malayalam", "Oriya", "Gurmukhi", "Arabic"]

/-- translator.py `detect_language`: join the samples with a single space,
normalise newlines to spaces, take the model's top-1 label, strip the
label marker, and map the code through the lang_codes.json table with
raw-code passthrough on a miss. -/
def detect_language (predict : String → String) (code2lang : String → Option String)
    (texts : List String) : String :=
  let joined := String.intercalate " " texts
  let lang := (predict (joined.replace "\n" " ")).replace "__label__" ""
  (code2lang lang).getD lang

/-- translator.py `translate`, instrumented: the Python function returns
only the text; the Boolean in the pair records whether the remote request
was issued, so that the no-remote-call guarantees can be stated. The guard
`source == target or not text.strip()` short-circuits before any request;
otherwise the single request is issued and every failure mode of
`requests.post` / `raise_for_status` / `r.json()["translatedText"]`
(collapsed into `remote _ _ _ = none`) is absorbed by returning the
original text. -/
def translate (remote : String → String → String → Option String)
    (text source target : String) : String × Bool :=
  if source = target ∨ py_strip text = "" then
    (text, false)
  else
    match remote text source target with
    | some translated => (translated, true)
    | none => (text, true)

/-- Result of the per-page text collection step (translator.py lines
105-120), instrumented with whether OCR ran and, if so, which script name
was passed to it. -/
structure ExtractResult where
  text : String
  ocrInvoked : Bool
  ocrLang : Option String
deriving Repr, DecidableEq

/-- The body of the collection loop of `process_pdf` for one page: if the
native text layer is non-empty after stripping, take `page.get_text()`
verbatim; otherwise render at the 2x matrix, detect a script hint from the
(empty) native text, map it through `tess_lang`, and run OCR with that
script. -/
def extractPage (env : Env) (page : Page) : ExtractResult :=
  if py_strip page.nativeText ≠ "" then
    { text := page.nativeText, ocrInvoked := false, ocrLang := none }
  else
    let img := env.render2x page
    let lang_hint := detect_language env.predict env.code2lang [page.nativeText]
    let tess_lang_code := tess_lang lang_hint
    { text := env.ocr img tess_lang_code, ocrInvoked := true, ocrLang := some tess_lang_code }

/-- The body of the reassembly loop of `process_pdf` for one page
(translator.py lines 131-157): a new page with the original rectangle's
width and height, one `insert_text` at (72,72) in helv 11pt — with
`color=(1,0,0)` exactly on the scanned branch — and every original image
inserted at the original page rectangle in encounter order. -/
def rebuildPage (page : Page) (new_text : String) : OutPage :=
  let rect := page.rect
  { width := rect.width,
    height := rect.height,
    texts :=
      if py_strip page.nativeText ≠ "" then
        [{ point := (72, 72), text := new_text, fontname := "helv", fontsize := 11,
           rotate := 0, color := none }]
      else
        [{ point := (72, 72), text := new_text, fontname := "helv", fontsize := 11,
           rotate := 0, color := some (1, 0, 0) }],
    images := page.images.map (fun xref => (rect, xref)) }

/-- Step 1 of `process_pdf`: the `all_texts` list, one extracted text per
page in document order. -/
def pipelineTexts (env : Env) (doc : List Page) : List String :=
  doc.map (fun page => (extractPage env page).text)

/-- The `target_lang` defaulting of translator.py lines 123-124: `None`
becomes "English". -/
def effectiveTarget : Option String → String
  | none => "English"
  | some t => t

/-- translator.py `process_pdf` as a function from the input page list to
the output page list: collect texts, detect the document language over all
of them, default the target, translate page by page, and rebuild one
output page per `zip(doc, translated_pages)` pair. -/
def process_pdf (env : Env) (doc : List Page) (target_lang : Option String) :
    List OutPage :=
  let all_texts := pipelineTexts env doc
  let detected_lang := detect_language env.predict env.code2lang all_texts
  let tgt := effectiveTarget target_lang
  let translated_pages := all_texts.map (fun t => (translate env.remote t detected_lang tgt).fst)
  (doc.zip translated_pages).map (fun pair => rebuildPage pair.fst pair.snd)

/-- The output page `process_pdf` produces for one given input page of the
document: rebuild it from the translation of its extracted text, with the
document-wide detected language as source and the defaulted target. -/
def pageOutput (env : Env) (doc : List Page) (target_lang : Option String)
    (page : Page) : OutPage :=
  rebuildPage page
    (translate env.remote (extractPage env page).text
      (detect_language env.predict env.code2lang (pipelineTexts env doc))
      (effectiveTarget target_lang)).fst

/-- A concrete oracle environment used to instantiate theorems with
hypotheses at concrete inputs. -/
def sampleEnv : Env :=
  { predict := fun _ => "__label__hi",
    code2lang := fun c => if c = "hi" then some "Hindi" else none,
    render2x := fun _ => [0],
    ocr := fun _ _ => "",
    remote := fun _ _ _ => none }

/-- A list zipped with its own image under a map, then mapped, is a single
map over the list. -/
theorem zip_map_self {α β γ : Type} (l : List α) (f : α → β) (g : α × β → γ) :
    (l.zip (l.map f)).map g = l.map (fun a => g (a, f a)) := by
  induction l with
  | nil => rfl
  | cons hd tl ih => simp only [List.map_cons, List.zip_cons_cons, ih]

/-- An association-list lookup with a default either yields the default or
one of the stored values. -/
theorem lookup_getD_mem (a : String) (l : List (String × String)) (d : String) :
    (l.lookup a).getD d = d ∨ (l.lookup a).getD d ∈ l.map Prod.snd := by
  induction l with
  | nil => exact Or.inl rfl
  | cons hd tl ih =>
    obtain ⟨k, v⟩ := hd
    by_cases h : a = k
    · subst h
      simp [List.lookup_cons]
    · rcases ih with ih | ih
      · exact Or.inl (by simpa [List.lookup_cons, beq_false_of_ne h] using ih)
      · exact Or.inr (by simp [List.lookup_cons, beq_false_of_ne h]; right; simpa using ih)

/-- An association-list lookup of a key absent from the key column
fails. -/
theorem lookup_eq_none_of_not_mem (a : String) (l : List (String × String))
    (h : a ∉ l.map Prod.fst) : l.lookup a = none := by
  induction l with
  | nil => rfl
  | cons hd tl ih =>
    obtain ⟨k, v⟩ := hd
    simp only [List.map_cons, List.mem_cons, not_or] at h
    simpa [List.lookup_cons, beq_false_of_ne h.1] using ih h.2

/-- `process_pdf` is a single map of `pageOutput` over the input pages. -/
theorem process_pdf_eq_map (env : Env) (doc : List Page) (tl : Option String) :
    process_pdf env doc tl = doc.map (pageOutput env doc tl) := by
  simp only [process_pdf, pageOutput, pipelineTexts, List.map_map, zip_map_self]
  rfl

/-- Claim C1: for every input document, `process_pdf` produces an output
with exactly the same page count, and for each input page index exactly
one output page is produced in order, in 1:1 index correspondence (no
pages added, removed, or reordered). -/
theorem process_pdf_page_correspondence (env : Env) (doc : List Page) (tl : Option String) :
    (process_pdf env doc tl).length = doc.length ∧
    ∀ i : Nat, (process_pdf env doc tl)[i]? = (doc[i]?).map (pageOutput env doc tl) := by
  rw [process_pdf_eq_map]
  exact ⟨List.length_map doc _, fun i => List.getElem?_map (pageOutput env doc tl) doc i⟩

/-- Claim C2: `translate` returns the text unchanged and makes no remote
call whenever source equals target or the text is empty or
whitespace-only; in particular it is the identity when source equals
target. -/
theorem translate_same_or_blank_no_call (remote : String → String → String → Option String)
    (t s tg : String) (h : s = tg ∨ py_strip t = "") :
    translate remote t s tg = (t, false) := by
  unfold translate
  rw [if_pos h]

/-- Witness for claim C2 at a concrete input with source equal to
target. -/
theorem translate_same_or_blank_no_call_witness :
    (("Hindi" : String) = "Hindi" ∨ py_strip "namaste" = "") ∧
    translate (fun _ _ _ => some "X") "namaste" "Hindi" "Hindi" = ("namaste", false) :=
  ⟨Or.inl rfl, translate_same_or_blank_no_call (fun _ _ _ => some "X") "namaste" "Hindi" "Hindi"
    (Or.inl rfl)⟩

/-- Claim C3: with distinct source and target and non-blank text, if the
single remote request fails in any way, `translate` is still total (never
raises) and returns the original text unchanged: the caller receives no
error signal. -/
theorem translate_remote_failure_returns_original
    (remote : String → String → String → Option String) (t s tg : String)
    (hs : s ≠ tg) (ht : py_strip t ≠ "") (hr : remote t s tg = none) :
    translate remote t s tg = (t, true) := by
  unfold translate
  rw [if_neg (not_or.mpr ⟨hs, ht⟩), hr]

/-- Witness for claim C3 at a concrete input with an always-failing remote
endpoint. -/
theorem translate_remote_failure_witness :
    ("Hindi" : String) ≠ "English" ∧ py_strip "namaste" ≠ "" ∧
    translate (fun _ _ _ => none) "namaste" "Hindi" "English" = ("namaste", true) :=
  ⟨by decide, by decide,
   translate_remote_failure_returns_original (fun _ _ _ => none) "namaste" "Hindi" "English"
     (by decide) (by decide) rfl⟩

/-- Claim C4: `tess_lang` is a pure total function on strings: every input
maps to a valid script identifier, and any name outside the table maps to
the default "Devanagari". -/
theorem tess_lang_total_default (s : String) :
    tess_lang s ∈ tessScripts ∧
    (s ∉ tessMapping.map Prod.fst → tess_lang s = "Devanagari") := by
  constructor
  · rcases lookup_getD_mem s tessMapping "Devanagari" with h | h
    · rw [tess_lang, h]; decide
    · have hs : ∀ x ∈ tessMapping.map Prod.snd, x ∈ tessScripts := by decide
      exact hs _ h
  · intro h
    rw [tess_lang, lookup_eq_none_of_not_mem s tessMapping h]
    rfl

/-- Witness for claim C4 at a name outside the table. -/
theorem tess_lang_total_default_witness :
    tess_lang "Klingon" ∈ tessScripts ∧ tess_lang "Klingon" = "Devanagari" :=
  ⟨(tess_lang_total_default "Klingon").1,
   (tess_lang_total_default "Klingon").2 (by decide)⟩

/-- Claim C5: the output page built by the reassembly step has width and
height exactly equal to the original page's width and height. -/
theorem rebuild_geometry (p : Page) (t : String) :
    (rebuildPage p t).width = p.rect.width ∧ (rebuildPage p t).height = p.rect.height :=
  ⟨rfl, rfl⟩

/-- Claim C6: a page whose native text layer is non-empty after trimming
is returned verbatim by the extraction step, and OCR is never invoked for
it (no rendering, no script detection, no OCR call). -/
theorem extract_native_verbatim (env : Env) (p : Page) (h : py_strip p.nativeText ≠ "") :
    extractPage env p = ⟨p.nativeText, false, none⟩ := by
  unfold extractPage
  rw [if_pos h]

/-- Witness for claim C6 at a concrete native-text page. -/
theorem extract_native_verbatim_witness :
    py_strip "hello" ≠ "" ∧
    extractPage sampleEnv ⟨⟨612, 792⟩, "hello", []⟩ = ⟨"hello", false, none⟩ :=
  ⟨by decide, extract_native_verbatim sampleEnv ⟨⟨612, 792⟩, "hello", []⟩ (by decide)⟩

/-- Claim C7: when `target_lang` is None, the effective target language
used for all page translations is "English". -/
theorem process_pdf_default_target (env : Env) (doc : List Page) :
    effectiveTarget none = "English" ∧
    process_pdf env doc none = process_pdf env doc (some "English") :=
  ⟨rfl, rfl⟩

/-- Claim C8: for a page with an empty native text layer after trimming,
the extraction step is total (always returns a string, never raises) and
the language it passes to the OCR engine is always the result of routing
the detected hint through `tess_lang` first. -/
theorem extract_scanned_total_routed (env : Env) (p : Page) (h : py_strip p.nativeText = "") :
    extractPage env p =
      ⟨env.ocr (env.render2x p)
         (tess_lang (detect_language env.predict env.code2lang [p.nativeText])),
       true,
       some (tess_lang (detect_language env.predict env.code2lang [p.nativeText]))⟩ := by
  unfold extractPage
  rw [if_neg (not_not_intro h)]

/-- Witness for claim C8 at a concrete raster-only page. -/
theorem extract_scanned_total_routed_witness :
    py_strip " " = "" ∧
    extractPage sampleEnv ⟨⟨300, 200⟩, " ", [3]⟩ =
      ⟨sampleEnv.ocr (sampleEnv.render2x ⟨⟨300, 200⟩, " ", [3]⟩)
         (tess_lang (detect_language sampleEnv.predict sampleEnv.code2lang [" "])),
       true,
       some (tess_lang (detect_language sampleEnv.predict sampleEnv.code2lang [" "]))⟩ :=
  ⟨by decide, extract_scanned_total_routed sampleEnv ⟨⟨300, 200⟩, " ", [3]⟩ (by decide)⟩

/-- Claim C9: the reassembly step draws the translated text in red if and
only if the original page's native text layer is empty after trimming; in
both branches the single insertion uses the same anchor (72,72), font
helv, size 11pt, and rotation 0. -/
theorem rebuild_red_iff_scanned (p : Page) (t : String) :
    (rebuildPage p t).texts =
      [{ point := (72, 72), text := t, fontname := "helv", fontsize := 11, rotate := 0,
         color := if py_strip p.nativeText = "" then some (1, 0, 0) else none }] ∧
    ((rebuildPage p t).texts.map InsertedText.color = [some (1, 0, 0)] ↔
      py_strip p.nativeText = "") := by
  by_cases h : py_strip p.nativeText = "" <;> simp [rebuildPage, h]

end IndicPdf
